import Mathlib

/-!
Verification of the SUNSTUDIO generation core: the strategy dispatch module
(five generation strategies over a creative-asset graph), the resilient
retry invoker, the WAV container synthesis helpers, and the video
submission join/fallback logic of the service layer.

The embedding is shallow: JavaScript functions become Lean functions,
remote SDK calls become oracle functions supplied through an environment
record, thrown exceptions become `Except` errors, and JavaScript
truthiness of optional strings is made explicit (`tstr`).
-/

/-! ## JavaScript-style string helpers -/

/-- Truthiness of an optional string in JavaScript: absent and the empty
string are falsy, every other string is truthy. -/
def tstr : Option String → Bool
  | some s => s != ""
  | none => false

/-- The JavaScript expression `a || b || null` on optional strings: the
first truthy operand, defaulting to null. -/
def jsOrT (a b : Option String) : Option String :=
  if tstr a then a else if tstr b then b else none

/-- The JavaScript expression `a || d` with a string default `d`. -/
def jsOrD (a : Option String) (d : String) : String :=
  match a with
  | some s => if s != "" then s else d
  | none => d

/-- The needle list is an initial segment of the hay list. -/
def listHasInit : List Char → List Char → Bool
  | [], _ => true
  | _ :: _, [] => false
  | c :: cs, d :: ds => c == d && listHasInit cs ds

/-- The needle occurs contiguously somewhere in the hay. -/
def listContains (needle : List Char) : List Char → Bool
  | [] => needle.isEmpty
  | d :: ds => listHasInit needle (d :: ds) || listContains needle ds

/-- JavaScript `hay.includes(needle)` for strings. -/
def strIncludes (hay needle : String) : Bool :=
  listContains needle.toList hay.toList

/-- ASCII lower-casing, matching `toLowerCase` on the ASCII fragment the
code compares against. -/
def strLower (s : String) : String :=
  String.mk (s.toList.map Char.toLower)

/-! ## Error model (`getErrorMessage`, overload classification)

Remote failures are modelled as a record of the fields the service layer
inspects: a numeric `status`, a numeric `code`, a `message` string, and an
optionally nested `error.message` string. -/

structure GError where
  status : Option Nat
  code : Option Nat
  message : String
  errorMessage : Option String
deriving DecidableEq, Repr

/-- An error carrying only a message, as built by `new Error(msg)`. -/
def mkErr (msg : String) : GError := ⟨none, none, msg, none⟩

/-- Placeholder rendering for the `JSON.stringify(error)` branch of
`getErrorMessage`; no claim exercises this branch. -/
def stringifyGError (e : GError) : String :=
  "\x7b\"message\":\"" ++ e.message ++ "\"\x7d"

/-- `getErrorMessage` from the service layer: prefer `error.message`, then
the nested `error.error.message`, then a JSON rendering. (The `null` and
plain-string error shapes of the source are outside this embedding, which
fixes the object shape above.) -/
def getErrorMessage (e : GError) : String :=
  if e.message != "" then e.message
  else
    match e.errorMessage with
    | some m => if m != "" then m else stringifyGError e
    | none => stringifyGError e

/-- The transient-error classification of `retryWithBackoff`: status or
code 503, a lower-cased message containing "overloaded" or "503", or
status or code 429. -/
def isOverloaded (e : GError) : Bool :=
  let msg := strLower (getErrorMessage e)
  e.status == some 503 || e.code == some 503 ||
    strIncludes msg "overloaded" || strIncludes msg "503" ||
    e.status == some 429 || e.code == some 429

/-! ## Resilient invoker (`retryWithBackoff`)

The operation is an oracle giving the outcome of its i-th invocation.
The result records the value or final error, the number of times the
operation was invoked, and the list of waits performed (in ms).
`Except.error none` models the dead `throw lastError` path reached only
when `maxRetries = 0` (where `lastError` is still undefined). -/

def retryAux {α : Type} (op : Nat → Except GError α) (maxRetries baseDelay : Nat) :
    Nat → Except (Option GError) α × Nat × List Nat
  | 0 => (Except.error none, 0, [])
  | fuel + 1 =>
    let i := maxRetries - (fuel + 1)
    match op i with
    | Except.ok v => (Except.ok v, 1, [])
    | Except.error e =>
      if isOverloaded e && decide (i < maxRetries - 1) then
        let r := retryAux op maxRetries baseDelay fuel
        (r.1, r.2.1 + 1, baseDelay * 2 ^ i :: r.2.2)
      else (Except.error (some e), 1, [])

/-- `retryWithBackoff(operation, maxRetries = 3, baseDelay = 2000)`. -/
def retryWithBackoff {α : Type} (op : Nat → Except GError α)
    (maxRetries : Nat) (baseDelay : Nat) : Except (Option GError) α × Nat × List Nat :=
  retryAux op maxRetries baseDelay maxRetries

/-! ## Audio helpers: base64 codec and WAV container synthesis -/

def b64Alphabet : List Char :=
  "ABCDEFGHIJKLMNOPQRSTUVWXYZabcdefghijklmnopqrstuvwxyz0123456789+/".toList

def b64Char (k : Nat) : Char := b64Alphabet.getD k 'A'

def b64CharVal (c : Char) : Option Nat :=
  b64Alphabet.findIdx? (fun d => d == c)

/-- btoa: encode a byte list (each < 256) in standard base64 with padding. -/
def b64EncGroups : List Nat → List Char
  | b0 :: b1 :: b2 :: rest =>
    let n := b0 % 256 * 65536 + b1 % 256 * 256 + b2 % 256
    b64Char (n / 262144) :: b64Char (n / 4096 % 64) :: b64Char (n / 64 % 64) ::
      b64Char (n % 64) :: b64EncGroups rest
  | [b0, b1] =>
    let n := b0 % 256 * 65536 + b1 % 256 * 256
    [b64Char (n / 262144), b64Char (n / 4096 % 64), b64Char (n / 64 % 64), '=']
  | [b0] =>
    let n := b0 % 256 * 65536
    [b64Char (n / 262144), b64Char (n / 4096 % 64), '=', '=']
  | [] => []

def btoaOfBytes (bs : List Nat) : String := String.mk (b64EncGroups bs)

/-- atob: decode standard base64 (quartets, optional final padding) into
bytes; `none` models the `InvalidCharacterError` thrown on bad input. -/
def b64DecodeChars : List Char → Option (List Nat)
  | [] => some []
  | c0 :: c1 :: c2 :: c3 :: rest => do
    let v0 ← b64CharVal c0
    let v1 ← b64CharVal c1
    if c2 = '=' then
      if c3 = '=' && rest.isEmpty then some [v0 * 4 + v1 / 16] else none
    else do
      let v2 ← b64CharVal c2
      if c3 = '=' then
        if rest.isEmpty then some [v0 * 4 + v1 / 16, v1 % 16 * 16 + v2 / 4] else none
      else do
        let v3 ← b64CharVal c3
        let tail ← b64DecodeChars rest
        some ((v0 * 4 + v1 / 16) :: (v1 % 16 * 16 + v2 / 4) :: (v2 % 4 * 64 + v3) :: tail)
  | _ => none

def atobBytes (s : String) : Option (List Nat) := b64DecodeChars s.toList

/-- Little-endian Uint16 write (`DataView.setUint16(_, v, true)`). -/
def u16le (v : Nat) : List Nat := [v % 256, v / 256 % 256]

/-- Little-endian Uint32 write (`DataView.setUint32(_, v, true)`). -/
def u32le (v : Nat) : List Nat :=
  [v % 256, v / 256 % 256, v / 65536 % 256, v / 16777216 % 256]

/-- `writeString`: the byte codes of an ASCII tag. -/
def asciiBytes (s : String) : List Nat := s.toList.map Char.toNat

/-- The 44-byte RIFF/WAVE header written by `combineBase64Chunks`, in the
exact field order of the source (offsets 0..43 are contiguous). -/
def wavHeader (totalLength sampleRate : Nat) : List Nat :=
  let channels := 1
  let bitDepth := 16
  asciiBytes "RIFF" ++ u32le (36 + totalLength) ++ asciiBytes "WAVE" ++
    asciiBytes "fmt " ++ u32le 16 ++ u16le 1 ++ u16le channels ++
    u32le sampleRate ++ u32le (sampleRate * channels * (bitDepth / 8)) ++
    u16le (channels * (bitDepth / 8)) ++ u16le bitDepth ++
    asciiBytes "data" ++ u32le totalLength

/-- The full WAV byte payload: header followed by the concatenated PCM
chunks in input order. -/
def combineChunksBytes (chunksBytes : List (List Nat)) (sampleRate : Nat) : List Nat :=
  let merged := chunksBytes.flatten
  wavHeader merged.length sampleRate ++ merged

/-- `combineBase64Chunks(chunks, sampleRate = 24000)`: decode every base64
chunk, synthesize the WAV payload, and return it as a base64 data URI with
MIME `audio/wav`; `none` models the exception on malformed base64 input. -/
def combineBase64Chunks (chunks : List String) (sampleRate : Nat) : Option String :=
  match chunks.mapM atobBytes with
  | some arrays =>
    some ("data:audio/wav;base64," ++ btoaOfBytes (combineChunksBytes arrays sampleRate))
  | none => none

/-- `pcmToWav(base64PCM, sampleRate = 24000)`. -/
def pcmToWav (base64PCM : String) (sampleRate : Nat) : Option String :=
  combineBase64Chunks [base64PCM] sampleRate

/-! ## Creative-graph node model

Modelled from the spec: the `AppNode` / `VideoGenerationMode` types live in
`types.ts`, which is not among the provided sources. The fields follow the
AssetNode data model of the spec (still image, video reference, cropped
frame, video metadata, aspect-ratio hint, generation-mode tag) and the
field accesses made by the strategy module. The mode tag is kept as an
optional raw string so that absent, empty and unrecognized tags are
expressible, as the spec requires of the dispatcher. -/

structure NodeData where
  image : Option String
  croppedFrame : Option String
  videoUri : Option String
  videoMetadata : Option String
  aspectRatio : Option String
  generationMode : Option String
deriving DecidableEq, Repr

structure AppNode where
  data : NodeData
deriving DecidableEq, Repr

/-- The closed set of recognized generation modes echoed by strategies. -/
inductive VideoGenerationMode
  | DEFAULT
  | CONTINUE
  | FIRST_LAST_FRAME
  | CUT
  | CHARACTER_REF
deriving DecidableEq, Repr

/-- The normalized strategy output. `videoInput` is an opaque passthrough
slot (`any` in the source), represented by an optional string. -/
structure StrategyResult where
  finalPrompt : String
  videoInput : Option String
  inputImageForGeneration : Option String
  referenceImages : Option (List String)
  generationMode : VideoGenerationMode
deriving DecidableEq, Repr

/-- Oracle record for the remote calls a strategy may make.
`urlToBase64` never fails (the source degrades to an empty string);
the other calls can reject, modelled by `Except`. The image-generation
oracle takes prompt, model, input images, aspect ratio and count. -/
structure Env where
  urlToBase64 : String → String
  extractLastFrame : String → Except GError String
  orchestrateVideoPrompt : List String → String → Except GError String
  analyzeVideo : String → String → String → Except GError String
  generateImageFromText : String → String → List String → String → Nat → Except GError (List String)

/-! ## Generation strategies (strategy module) -/

/-- Seed selection of `processDefaultVideoGen`: the first upstream input
exposing an image or cropped frame, taking its cropped frame over its
image (`croppedFrame || image || null`). The node itself is never
consulted. -/
def defaultSeed (inputs : List AppNode) : Option String :=
  match inputs.find? (fun n => tstr n.data.image || tstr n.data.croppedFrame) with
  | some n => jsOrT n.data.croppedFrame n.data.image
  | none => none

/-- Default strategy: prompt passthrough, seed from upstream, mode DEFAULT.
The node argument is unused, exactly as in the source. -/
def processDefaultVideoGen (_env : Env) (_node : AppNode) (inputs : List AppNode)
    (prompt : String) : StrategyResult :=
  ⟨prompt, none, defaultSeed inputs, none, VideoGenerationMode.DEFAULT⟩

/-- Seed derivation of `processStoryContinuator`: first upstream input with
a video reference or metadata; if it has a truthy URI, materialize remote
URLs, extract the last frame, and keep it when truthy; extraction failure
degrades to no seed (the caught warning path). -/
def continuatorSeed (env : Env) (inputs : List AppNode) : Option String :=
  match inputs.find? (fun n => tstr n.data.videoUri || tstr n.data.videoMetadata) with
  | some vn =>
    match vn.data.videoUri with
    | some vu =>
      if vu != "" then
        let videoSrc := if vu.startsWith "http" then env.urlToBase64 vu else vu
        match env.extractLastFrame videoSrc with
        | Except.ok lastFrame => if lastFrame != "" then some lastFrame else none
        | Except.error _ => none
      else none
    | none => none
  | none => none

/-- StoryContinuator strategy: mode CONTINUE. -/
def processStoryContinuator (env : Env) (_node : AppNode) (inputs : List AppNode)
    (prompt : String) : StrategyResult :=
  ⟨prompt, none, continuatorSeed env inputs, none, VideoGenerationMode.CONTINUE⟩

/-- Image collection of `processFrameWeaver`: every upstream input's
cropped-frame-or-image, in input order, keeping only truthy sources. -/
def frameImages (inputs : List AppNode) : List String :=
  inputs.filterMap (fun n => jsOrT n.data.croppedFrame n.data.image)

/-- FrameWeaver strategy: when at least two images are collected, bridge
the first and last via the prompt orchestrator (failure keeps the original
prompt); the full ordered collection becomes `referenceImages` and the
first image the seed; mode FIRST_LAST_FRAME. -/
def processFrameWeaver (env : Env) (_node : AppNode) (inputs : List AppNode)
    (prompt : String) : StrategyResult :=
  let inputImages := frameImages inputs
  let finalPrompt :=
    if inputImages.length ≥ 2 then
      match env.orchestrateVideoPrompt [inputImages.headD "", inputImages.getLastD ""] prompt with
      | Except.ok bridged => bridged
      | Except.error _ => prompt
    else prompt
  ⟨finalPrompt, none, inputImages.head?, some inputImages, VideoGenerationMode.FIRST_LAST_FRAME⟩

/-- Style analysis of `processSceneDirector`: first upstream input with a
truthy video URI is analyzed for style; any failure is swallowed, leaving
the style empty. -/
def sceneStyle (env : Env) (inputs : List AppNode) : String :=
  match inputs.find? (fun n => tstr n.data.videoUri) with
  | some vn =>
    match vn.data.videoUri with
    | some vu =>
      if vu != "" then
        let vidData := if vu.startsWith "http" then env.urlToBase64 vu else vu
        match env.analyzeVideo vidData "Analyze the visual style briefly." "gemini-3-flash-preview" with
        | Except.ok s => s
        | Except.error _ => ""
      else ""
    | none => ""
  | none => ""

/-- Image selection of `processSceneDirector`: the node's own cropped
frame when truthy, else the first upstream cropped frame, else the first
upstream image. The node's own plain image is never consulted. -/
def sceneSelect (node : AppNode) (inputs : List AppNode) : Option String :=
  if tstr node.data.croppedFrame then node.data.croppedFrame
  else
    match inputs.find? (fun n => tstr n.data.croppedFrame) with
    | some cropSource => cropSource.data.croppedFrame
    | none =>
      match inputs.find? (fun n => tstr n.data.image) with
      | some imgSource => imgSource.data.image
      | none => none

/-- The restoration prompt built by `processSceneDirector`. -/
def restorationPrompt (prompt : String) : String :=
  "Sharpen and upscale this crop to 4K cinematic quality. Preserve composition exactly. Description: " ++ prompt ++ "."

/-- Restoration pass of `processSceneDirector`: when a seed is selected,
attempt an AI upscale at the node's aspect ratio (default 16:9); a failed
or empty result keeps the pre-restoration image. -/
def sceneRestore (env : Env) (node : AppNode) (prompt : String)
    (img : Option String) : Option String :=
  match img with
  | some i =>
    if i != "" then
      match env.generateImageFromText (restorationPrompt prompt) "gemini-2.5-flash-image"
          [i] (jsOrD node.data.aspectRatio "16:9") 1 with
      | Except.ok restored => if restored.length > 0 then restored.head? else some i
      | Except.error _ => some i
    else img
  | none => none

/-- SceneDirector strategy: the style suffix line is appended to the
prompt unconditionally (an empty style when analysis is absent or
failed); mode CUT. -/
def processSceneDirector (env : Env) (node : AppNode) (inputs : List AppNode)
    (prompt : String) : StrategyResult :=
  ⟨prompt ++ ". \n\nStyle: " ++ sceneStyle env inputs, none,
    sceneRestore env node prompt (sceneSelect node inputs), none, VideoGenerationMode.CUT⟩

/-- Motion analysis of `processCharacterRef`: first upstream input with a
truthy video URI is analyzed for motion; failures are swallowed. -/
def characterMotion (env : Env) (inputs : List AppNode) : String :=
  match inputs.find? (fun n => tstr n.data.videoUri) with
  | some vn =>
    match vn.data.videoUri with
    | some vu =>
      if vu != "" then
        let vidData := if vu.startsWith "http" then env.urlToBase64 vu else vu
        match env.analyzeVideo vidData "Describe only the motion and camera movement." "gemini-3-flash-preview" with
        | Except.ok s => s
        | Except.error _ => ""
      else ""
    | none => ""
  | none => ""

/-- CharacterRef strategy: seed is the first upstream image; a nonempty
motion description is prepended to the prompt; mode CHARACTER_REF. -/
def processCharacterRef (env : Env) (_node : AppNode) (inputs : List AppNode)
    (prompt : String) : StrategyResult :=
  let characterImage :=
    match inputs.find? (fun n => tstr n.data.image) with
    | some n => n.data.image
    | none => none
  let motionDescription := characterMotion env inputs
  let finalPrompt :=
    if motionDescription != "" then "Motion: " ++ motionDescription ++ ". " ++ prompt
    else prompt
  ⟨finalPrompt, none, characterImage, none, VideoGenerationMode.CHARACTER_REF⟩

/-- The strategy dispatcher `getGenerationStrategy`: switch on
`node.data.generationMode || 'DEFAULT'`, with the default branch (and the
DEFAULT tag) selecting the Default strategy. -/
def effectiveMode (node : AppNode) : String :=
  match node.data.generationMode with
  | some s => if s != "" then s else "DEFAULT"
  | none => "DEFAULT"

def getGenerationStrategy (env : Env) (node : AppNode) (inputs : List AppNode)
    (basePrompt : String) : StrategyResult :=
  if effectiveMode node = "CHARACTER_REF" then processCharacterRef env node inputs basePrompt
  else if effectiveMode node = "FIRST_LAST_FRAME" then processFrameWeaver env node inputs basePrompt
  else if effectiveMode node = "CUT" then processSceneDirector env node inputs basePrompt
  else if effectiveMode node = "CONTINUE" then processStoryContinuator env node inputs basePrompt
  else processDefaultVideoGen env node inputs basePrompt

/-- Replace only the prompt-bridging oracle of an environment. -/
def envWithBridge (env : Env) (f : List String → String → Except GError String) : Env :=
  ⟨env.urlToBase64, env.extractLastFrame, f, env.analyzeVideo, env.generateImageFromText⟩

/-! ## Service layer: credential check and generation entry points -/

/-- The message of the error thrown by `getClient` when no key is set. -/
def missingKeyMsg : String :=
  "API Key is missing. Please select a paid API key via the Google AI Studio button."

/-- `getClient`: throws the missing-credential error when the key is
absent or empty, otherwise yields a client (modelled as a unit). -/
def getClient (apiKey : Option String) : Except GError Unit :=
  if tstr apiKey then Except.ok () else Except.error (mkErr missingKeyMsg)

/-- `sendChatMessage`: acquire a client (eager key check), select the model
and system instruction from the options, then send; an empty reply text
becomes "No response". The remote oracle takes model, instruction tag and
message. -/
def sendChatMessage (apiKey : Option String)
    (remote : String → String → String → Except GError String)
    (newMessage : String) (isThinkingMode isStoryboard isHelpMeWrite : Bool) :
    Except GError String :=
  match getClient apiKey with
  | Except.error e => Except.error e
  | Except.ok _ =>
    let modelName := if isThinkingMode then "gemini-3-pro-preview" else "gemini-3-flash-preview"
    let systemInstruction :=
      if isStoryboard then "STORYBOARD_INSTRUCTION"
      else if isHelpMeWrite then "HELP_ME_WRITE_INSTRUCTION"
      else "SYSTEM_INSTRUCTION"
    match remote modelName systemInstruction newMessage with
    | Except.ok text => Except.ok (if text != "" then text else "No response")
    | Except.error e => Except.error e

/-- `generateImageFromText`: acquire a client (eager key check), pick the
effective model, issue the request (oracle takes effective model, prompt,
input images, aspect ratio, image size); an empty image list raises the
safety-filter error; any caught error is rethrown wrapped through
`getErrorMessage`. Part-level marshalling of inline image data is
abstracted into the oracle boundary. -/
def generateImageFromText (apiKey : Option String)
    (remote : String → String → List String → String → String → Except GError (List String))
    (prompt model : String) (inputImages : List String)
    (aspectRatio resolution : Option String) : Except GError (List String) :=
  match getClient apiKey with
  | Except.error e => Except.error e
  | Except.ok _ =>
    let effectiveModel :=
      if strIncludes model "imagen" then "imagen-4.0-generate-001" else "gemini-2.5-flash-image"
    let upRes := resolution.map String.toUpper
    let imageSize :=
      if upRes = some "1K" then "1K"
      else if upRes = some "2K" then "2K"
      else if upRes = some "4K" then "4K"
      else "1K"
    match remote effectiveModel prompt inputImages (jsOrD aspectRatio "1:1") imageSize with
    | Except.ok images =>
      if images.length = 0 then
        Except.error (mkErr "No images generated. Safety filter might have been triggered.")
      else Except.ok images
    | Except.error e => Except.error (mkErr (getErrorMessage e))

/-- `generateAudio`: acquire a client (eager key check), pick the voice
from the persona label, synthesize speech (oracle yields the optional
inline audio data), and wrap the PCM into a WAV data URI. -/
def generateAudio (apiKey : Option String)
    (remote : String → String → Except GError (Option String))
    (prompt : String) (personaLabel : Option String) : Except GError String :=
  match getClient apiKey with
  | Except.error e => Except.error e
  | Except.ok _ =>
    let voiceName := if personaLabel = some "Deep Narrative" then "Kore" else "Puck"
    match remote prompt voiceName with
    | Except.error e => Except.error e
    | Except.ok audioData =>
      match audioData with
      | some a =>
        if a != "" then
          match pcmToWav a 24000 with
          | some wav => Except.ok wav
          | none => Except.error (mkErr "InvalidCharacterError")
        else Except.error (mkErr "Audio generation failed")
      | none => Except.error (mkErr "Audio generation failed")

/-! ## Video submission: fan-out join and still-image fallback

`generateVideo` never calls `getClient`; it builds clients from the raw
key value directly, so the key only reappears interpolated into result
URIs (JavaScript renders an absent key as the string "undefined"). Each
settled fan-out operation is modelled by its optional result URI
(`Except.error` for a rejected operation, `Except.ok` carrying
`video?.uri`). -/

def qualitySuffix : String :=
  ", cinematic lighting, highly detailed, photorealistic, 4k, smooth motion, professional color grading"

/-- String interpolation of the possibly-absent API key. -/
def envKeyStr : Option String → String
  | some k => k
  | none => "undefined"

/-- The join loop over settled results: every fulfilled operation with a
truthy URI contributes that URI suffixed with the key parameter. -/
def collectValidUris (results : List (Except GError (Option String)))
    (apiKey : Option String) : List String :=
  results.filterMap (fun r =>
    match r with
    | Except.ok (some u) => if u != "" then some (u ++ "&key=" ++ envKeyStr apiKey) else none
    | _ => none)

/-- The aggregated cause when no operation yields a usable URI: the first
rejected operation's reason, or a generic failure. -/
def firstRejected (results : List (Except GError (Option String))) : GError :=
  match results.find? (fun r => match r with | Except.error _ => true | _ => false) with
  | some (Except.error e) => e
  | _ => mkErr "Video generation failed."

structure VideoResult where
  uri : String
  uris : Option (List String)
  isFallbackImage : Bool
deriving DecidableEq, Repr

/-- The prompt of the one still-image fallback call. -/
def fallbackPrompt (prompt : String) : String :=
  "Cinematic movie still, " ++ (prompt ++ qualitySuffix)

/-- The join/fallback core of `generateVideo` over the settled fan-out
results. Returns the outcome together with the list of prompts passed to
the still-image fallback (so the number of fallback calls is observable). -/
def generateVideoCore (apiKey : Option String)
    (results : List (Except GError (Option String)))
    (fallback : String → Except GError (List String)) (prompt : String) :
    Except GError VideoResult × List String :=
  let validUris := collectValidUris results apiKey
  if validUris.length = 0 then
    let cause := firstRejected results
    let fp := fallbackPrompt prompt
    match fallback fp with
    | Except.ok imgs => (Except.ok ⟨imgs.headD "", none, true⟩, [fp])
    | Except.error _ =>
      (Except.error (mkErr ("Video generation failed: " ++ getErrorMessage cause)), [fp])
  else
    (Except.ok ⟨validUris.headD "", some validUris, false⟩, [])

/-- `generateVideo` restricted to its fan-out/join behavior: issue
`options.count || 1` operations (the i-th settling as `opResult i`) and
join them through `generateVideoCore`. -/
def generateVideo (apiKey : Option String)
    (opResult : Nat → Except GError (Option String))
    (fallback : String → Except GError (List String))
    (prompt : String) (countOpt : Option Nat) :
    Except GError VideoResult × List String :=
  let count := match countOpt with
    | some c => if c != 0 then c else 1
    | none => 1
  generateVideoCore apiKey ((List.range count).map opResult) fallback prompt

/-! ## Concrete inputs used by witnesses and counterexamples -/

/-- An environment whose remote calls all fail (and whose URL
materialization degrades to the empty string). -/
def env0 : Env :=
  ⟨fun _ => "",
   fun _ => Except.error (mkErr "remote unavailable"),
   fun _ _ => Except.error (mkErr "remote unavailable"),
   fun _ _ _ => Except.error (mkErr "remote unavailable"),
   fun _ _ _ _ _ => Except.error (mkErr "remote unavailable")⟩

def emptyData : NodeData := ⟨none, none, none, none, none, none⟩

/-- A node with no payload and no mode tag. -/
def node0 : AppNode := ⟨emptyData⟩

def nodeWithImage (s : String) : AppNode := ⟨⟨some s, none, none, none, none, none⟩⟩

def nodeWithCrop (s : String) : AppNode := ⟨⟨none, some s, none, none, none, none⟩⟩

def nodeWithMode (m : String) : AppNode := ⟨⟨none, none, none, none, none, some m⟩⟩

/-- A transient error: bare 503 status, as the remote SDK surfaces
overload. -/
def err503W : GError := ⟨some 503, none, "The model is overloaded", none⟩

/-- A permanent error. -/
def errPermW : GError := ⟨some 400, none, "Invalid argument", none⟩

/-! ## Claims -/

/-- C1: the strategy dispatcher is a total, pure selection: each of the
five recognized mode tags dispatches to its documented strategy, and an
absent, empty or unrecognized `generationMode` dispatches to the Default
strategy. Selection never fails: `getGenerationStrategy` is a total Lean
function. -/
theorem getGenerationStrategy_dispatch (env : Env) (node : AppNode)
    (inputs : List AppNode) (p : String) :
    (node.data.generationMode = some "DEFAULT" →
      getGenerationStrategy env node inputs p = processDefaultVideoGen env node inputs p) ∧
    (node.data.generationMode = some "CONTINUE" →
      getGenerationStrategy env node inputs p = processStoryContinuator env node inputs p) ∧
    (node.data.generationMode = some "FIRST_LAST_FRAME" →
      getGenerationStrategy env node inputs p = processFrameWeaver env node inputs p) ∧
    (node.data.generationMode = some "CUT" →
      getGenerationStrategy env node inputs p = processSceneDirector env node inputs p) ∧
    (node.data.generationMode = some "CHARACTER_REF" →
      getGenerationStrategy env node inputs p = processCharacterRef env node inputs p) ∧
    (node.data.generationMode = none →
      getGenerationStrategy env node inputs p = processDefaultVideoGen env node inputs p) ∧
    (∀ s, node.data.generationMode = some s →
      s ∉ (["DEFAULT", "CONTINUE", "FIRST_LAST_FRAME", "CUT", "CHARACTER_REF"] : List String) →
      getGenerationStrategy env node inputs p = processDefaultVideoGen env node inputs p) := by
  refine ⟨?_, ?_, ?_, ?_, ?_, ?_, ?_⟩
  · intro h
    simp [getGenerationStrategy, effectiveMode, h]
  · intro h
    simp [getGenerationStrategy, effectiveMode, h]
  · intro h
    simp [getGenerationStrategy, effectiveMode, h]
  · intro h
    simp [getGenerationStrategy, effectiveMode, h]
  · intro h
    simp [getGenerationStrategy, effectiveMode, h]
  · intro h
    simp [getGenerationStrategy, effectiveMode, h]
  · intro s h hs
    simp only [List.mem_cons, List.not_mem_nil, or_false, not_or] at hs
    obtain ⟨h1, h2, h3, h4, h5⟩ := hs
    by_cases hse : s = ""
    · subst hse
      simp [getGenerationStrategy, effectiveMode, h]
    · simp [getGenerationStrategy, effectiveMode, h, hse, h2, h3, h4, h5]

/-- C1 witness: with no mode tag, the dispatcher selects the Default
strategy on a concrete node. -/
theorem getGenerationStrategy_dispatch_witness :
    getGenerationStrategy env0 node0 [] "p" = processDefaultVideoGen env0 node0 [] "p" :=
  (getGenerationStrategy_dispatch env0 node0 [] "p").2.2.2.2.2.1 rfl

/-- C2: with the default parameters (3 retries, 2000ms base delay), an
operation that fails twice transiently then succeeds runs exactly 3 times
with waits 2000ms then 4000ms and yields the success value; a
non-transient first failure runs exactly once, propagates immediately and
performs no wait; three transient failures exhaust the attempts and
propagate the last error. -/
theorem retryWithBackoff_spec {α : Type} (op opB opC : Nat → Except GError α)
    (e1 e2 eN f1 f2 f3 : GError) (v : α) :
    (op 0 = Except.error e1 → op 1 = Except.error e2 → op 2 = Except.ok v →
      isOverloaded e1 = true → isOverloaded e2 = true →
      retryWithBackoff op 3 2000 = (Except.ok v, 3, [2000, 4000])) ∧
    (opB 0 = Except.error eN → isOverloaded eN = false →
      retryWithBackoff opB 3 2000 = (Except.error (some eN), 1, [])) ∧
    (opC 0 = Except.error f1 → opC 1 = Except.error f2 → opC 2 = Except.error f3 →
      isOverloaded f1 = true → isOverloaded f2 = true →
      retryWithBackoff opC 3 2000 = (Except.error (some f3), 3, [2000, 4000])) := by
  refine ⟨?_, ?_, ?_⟩
  · intro h0 h1 h2 hov1 hov2
    simp [retryWithBackoff, retryAux, h0, h1, h2, hov1, hov2]
  · intro h0 hov
    simp [retryWithBackoff, retryAux, h0, hov]
  · intro h0 h1 h2 hov1 hov2
    simp [retryWithBackoff, retryAux, h0, h1, h2, hov1, hov2]

/-- C2 witness: a concrete operation failing twice with a 503 error then
succeeding with 7 is invoked 3 times, waits 2000ms and 4000ms, and
returns 7. -/
theorem retryWithBackoff_spec_witness :
    retryWithBackoff
      (fun i => if i = 0 then Except.error err503W
        else if i = 1 then Except.error err503W else Except.ok 7) 3 2000 =
      (Except.ok 7, 3, [2000, 4000]) :=
  (retryWithBackoff_spec
      (fun i => if i = 0 then Except.error err503W
        else if i = 1 then Except.error err503W else Except.ok 7)
      (fun _ => Except.ok 7) (fun _ => Except.ok 7)
      err503W err503W errPermW errPermW errPermW errPermW 7).1
    rfl rfl rfl (by decide) (by decide)

/-- Helper: the dispatcher always returns the result of one of the five
strategies. -/
theorem gStrategyCases (env : Env) (node : AppNode) (inputs : List AppNode) (p : String) :
    getGenerationStrategy env node inputs p = processCharacterRef env node inputs p ∨
    getGenerationStrategy env node inputs p = processFrameWeaver env node inputs p ∨
    getGenerationStrategy env node inputs p = processSceneDirector env node inputs p ∨
    getGenerationStrategy env node inputs p = processStoryContinuator env node inputs p ∨
    getGenerationStrategy env node inputs p = processDefaultVideoGen env node inputs p := by
  unfold getGenerationStrategy
  split_ifs <;> simp

/-- C4: `referenceImages` is populated only by the FIRST_LAST_FRAME
strategy; the four other strategies always return it undefined and echo
their own mode tags, and every dispatched result with a defined
`referenceImages` carries mode FIRST_LAST_FRAME. -/
theorem referenceImages_invariant (env : Env) (node : AppNode)
    (inputs : List AppNode) (p : String) :
    (processDefaultVideoGen env node inputs p).referenceImages = none ∧
    (processDefaultVideoGen env node inputs p).generationMode = VideoGenerationMode.DEFAULT ∧
    (processStoryContinuator env node inputs p).referenceImages = none ∧
    (processStoryContinuator env node inputs p).generationMode = VideoGenerationMode.CONTINUE ∧
    (processSceneDirector env node inputs p).referenceImages = none ∧
    (processSceneDirector env node inputs p).generationMode = VideoGenerationMode.CUT ∧
    (processCharacterRef env node inputs p).referenceImages = none ∧
    (processCharacterRef env node inputs p).generationMode = VideoGenerationMode.CHARACTER_REF ∧
    (processFrameWeaver env node inputs p).generationMode = VideoGenerationMode.FIRST_LAST_FRAME ∧
    ((getGenerationStrategy env node inputs p).referenceImages = none ∨
      (getGenerationStrategy env node inputs p).generationMode = VideoGenerationMode.FIRST_LAST_FRAME) := by
  refine ⟨rfl, rfl, rfl, rfl, rfl, rfl, rfl, rfl, rfl, ?_⟩
  rcases gStrategyCases env node inputs p with h | h | h | h | h
  · exact Or.inl (by rw [h]; exact rfl)
  · exact Or.inr (by rw [h]; exact rfl)
  · exact Or.inl (by rw [h]; exact rfl)
  · exact Or.inl (by rw [h]; exact rfl)
  · exact Or.inl (by rw [h]; exact rfl)

/-- C7: WAV synthesis on the single 2-byte PCM chunk `[1, 2]` (base64
"AQI=") at 24000Hz yields the byte-exact 46-byte payload below — a
44-byte RIFF/WAVE header with ChunkSize 38, PCM format 1, NumChannels 1,
SampleRate 24000, ByteRate 48000, BlockAlign 2, BitsPerSample 16 and
Subchunk2Size 2, followed by the PCM data in input order — returned as a
base64 data URI with MIME audio/wav. -/
theorem combineBase64Chunks_wav_bytes :
    combineChunksBytes [[1, 2]] 24000 =
      [82, 73, 70, 70] ++ u32le 38 ++ [87, 65, 86, 69] ++ [102, 109, 116, 32] ++
        u32le 16 ++ u16le 1 ++ u16le 1 ++ u32le 24000 ++ u32le 48000 ++
        u16le 2 ++ u16le 16 ++ [100, 97, 116, 97] ++ u32le 2 ++ [1, 2] ∧
    (combineChunksBytes [[1, 2]] 24000).length = 46 ∧
    atobBytes "AQI=" = some [1, 2] ∧
    combineBase64Chunks ["AQI="] 24000 =
      some ("data:audio/wav;base64," ++ btoaOfBytes (combineChunksBytes [[1, 2]] 24000)) ∧
    combineBase64Chunks ["AQI="] 24000 =
      some "data:audio/wav;base64,UklGRiYAAABXQVZFZm10IBAAAAABAAEAwF0AAIC7AAACABAAZGF0YQIAAAABAg==" := by
  refine ⟨by decide, by decide, by decide, by decide, by decide⟩

/-- C10: every one of the five strategies, and hence every dispatched
result, carries `videoInput = null`; no strategy passes a video input
through. -/
theorem videoInput_always_null (env : Env) (node : AppNode)
    (inputs : List AppNode) (p : String) :
    (processDefaultVideoGen env node inputs p).videoInput = none ∧
    (processStoryContinuator env node inputs p).videoInput = none ∧
    (processFrameWeaver env node inputs p).videoInput = none ∧
    (processSceneDirector env node inputs p).videoInput = none ∧
    (processCharacterRef env node inputs p).videoInput = none ∧
    (getGenerationStrategy env node inputs p).videoInput = none := by
  refine ⟨rfl, rfl, rfl, rfl, rfl, ?_⟩
  rcases gStrategyCases env node inputs p with h | h | h | h | h <;> rw [h] <;> exact rfl

/-- C5: FrameWeaver invokes prompt-bridging only with at least 2 collected
upstream images. With exactly one collected image the result does not
depend on the bridging oracle at all (it is never invoked), and carries
the base prompt unchanged with a length-1 `referenceImages`; with two
collected images and a failing bridge, the prompt is returned unchanged
with a length-2 `referenceImages` (graceful degradation, no failure). -/
theorem frameWeaver_bridging (env : Env)
    (f : List String → String → Except GError String)
    (node : AppNode) (inputs : List AppNode) (p img i1 i2 : String) (e : GError) :
    (frameImages inputs = [img] →
      processFrameWeaver (envWithBridge env f) node inputs p = processFrameWeaver env node inputs p ∧
      (processFrameWeaver env node inputs p).finalPrompt = p ∧
      (processFrameWeaver env node inputs p).referenceImages = some [img]) ∧
    (frameImages inputs = [i1, i2] →
      env.orchestrateVideoPrompt [i1, i2] p = Except.error e →
      (processFrameWeaver env node inputs p).finalPrompt = p ∧
      (processFrameWeaver env node inputs p).referenceImages = some [i1, i2]) := by
  constructor
  · intro h
    refine ⟨?_, ?_, ?_⟩ <;> simp [processFrameWeaver, envWithBridge, h]
  · intro h hb
    constructor <;> simp [processFrameWeaver, h, hb]

/-- C5 witness: one cropped-frame upstream input yields the unchanged
prompt, and two upstream images with a failing bridge yield the unchanged
prompt and both reference images. -/
theorem frameWeaver_bridging_witness :
    ((processFrameWeaver env0 node0 [nodeWithCrop "img"] "p").finalPrompt = "p" ∧
      (processFrameWeaver env0 node0 [nodeWithCrop "img"] "p").referenceImages = some ["img"]) ∧
    ((processFrameWeaver env0 node0 [nodeWithCrop "i1", nodeWithImage "i2"] "p").finalPrompt = "p" ∧
      (processFrameWeaver env0 node0 [nodeWithCrop "i1", nodeWithImage "i2"] "p").referenceImages =
        some ["i1", "i2"]) :=
  ⟨⟨((frameWeaver_bridging env0 env0.orchestrateVideoPrompt node0 [nodeWithCrop "img"]
        "p" "img" "i1" "i2" (mkErr "remote unavailable")).1 rfl).2.1,
    ((frameWeaver_bridging env0 env0.orchestrateVideoPrompt node0 [nodeWithCrop "img"]
        "p" "img" "i1" "i2" (mkErr "remote unavailable")).1 rfl).2.2⟩,
    (frameWeaver_bridging env0 env0.orchestrateVideoPrompt node0
        [nodeWithCrop "i1", nodeWithImage "i2"] "p" "img" "i1" "i2"
        (mkErr "remote unavailable")).2 rfl rfl⟩

/-- C6 counterexample: the Default strategy does not give a node's own
cropped frame precedence — it ignores the node entirely. A node whose
cropped frame is set ("ownCrop") with one upstream image ("upImg")
selects the upstream image as seed, not the cropped frame. -/
theorem default_ignores_own_crop_cex :
    tstr (nodeWithCrop "ownCrop").data.croppedFrame = true ∧
    (processDefaultVideoGen env0 (nodeWithCrop "ownCrop") [nodeWithImage "upImg"] "p").inputImageForGeneration =
      some "upImg" ∧
    (processDefaultVideoGen env0 (nodeWithCrop "ownCrop") [nodeWithImage "upImg"] "p").inputImageForGeneration ≠
      (nodeWithCrop "ownCrop").data.croppedFrame := by
  refine ⟨by decide, by decide, by decide⟩

/-- C6 amended: in the SceneDirector strategy a node whose own cropped
frame is set selects that cropped frame as the pre-restoration seed,
ignoring every upstream image (the selection does not depend on the
inputs), and the strategy's seed is the restoration of that cropped
frame; the Default strategy ignores the node's own fields entirely and
seeds from the first upstream input bearing an image or cropped frame,
preferring its cropped frame. -/
theorem crop_precedence_amended (env : Env) (node : AppNode)
    (inputs : List AppNode) (p : String) :
    (tstr node.data.croppedFrame = true →
      sceneSelect node inputs = node.data.croppedFrame ∧
      (processSceneDirector env node inputs p).inputImageForGeneration =
        sceneRestore env node p node.data.croppedFrame) ∧
    (∀ node2 : AppNode,
      processDefaultVideoGen env node inputs p = processDefaultVideoGen env node2 inputs p) ∧
    (processDefaultVideoGen env node inputs p).inputImageForGeneration = defaultSeed inputs := by
  refine ⟨?_, fun _ => rfl, rfl⟩
  intro h
  have hsel : sceneSelect node inputs = node.data.croppedFrame := by
    simp [sceneSelect, h]
  exact ⟨hsel, by simp [processSceneDirector, hsel]⟩

/-- C6 amended witness: concrete node with a cropped frame and one
upstream image; the SceneDirector selection is the node's own crop. -/
theorem crop_precedence_amended_witness :
    sceneSelect (nodeWithCrop "own") [nodeWithImage "up"] = some "own" :=
  ((crop_precedence_amended env0 (nodeWithCrop "own") [nodeWithImage "up"] "p").1 (by decide)).1

/-- C8 counterexample: with no upstream inputs (so no style analysis
result exists), the SceneDirector prompt still carries the style suffix
line: it is the base prompt followed by ". \n\nStyle: " with empty
analysis text, not the suffix-free base prompt the claim requires. -/
theorem scene_style_suffix_cex :
    (processSceneDirector env0 (nodeWithCrop "c") [] "base").finalPrompt = "base. \n\nStyle: " ∧
    (processSceneDirector env0 (nodeWithCrop "c") [] "base").finalPrompt ≠ "base" := by
  refine ⟨by decide, by decide⟩

/-- C8 amended: the SceneDirector prompt is always the base prompt with
the style suffix line appended — the analysis text being empty whenever
the upstream analysis is absent or fails — and when the AI restoration
pass on a selected image fails, the returned seed is the pre-restoration
image unchanged. -/
theorem sceneDirector_amended (env : Env) (node : AppNode)
    (inputs : List AppNode) (p img : String) (e : GError) :
    (processSceneDirector env node inputs p).finalPrompt =
      p ++ ". \n\nStyle: " ++ sceneStyle env inputs ∧
    (img ≠ "" →
      env.generateImageFromText (restorationPrompt p) "gemini-2.5-flash-image"
          [img] (jsOrD node.data.aspectRatio "16:9") 1 = Except.error e →
      sceneRestore env node p (some img) = some img) := by
  constructor
  · rfl
  · intro hne hfail
    simp [sceneRestore, hne, hfail]

/-- C8 amended witness: with the always-failing environment, restoration
of a concrete selected image keeps it unchanged. -/
theorem sceneDirector_amended_witness :
    sceneRestore env0 node0 "p" (some "seed") = some "seed" :=
  (sceneDirector_amended env0 node0 [] "p" "seed" (mkErr "remote unavailable")).2
    (by decide) rfl

/-- C3 counterexample: the still-image fallback is not made with the same
suffix-augmented prompt: on a fan-out with zero successes the single
fallback call receives the suffix-augmented prompt additionally prefixed
with "Cinematic movie still, ", which differs from the suffix-augmented
prompt itself. -/
theorem generateVideo_fallback_prompt_cex :
    (generateVideoCore (some "K") [Except.error errPermW]
        (fun _ => Except.error errPermW) "p").2 =
      ["Cinematic movie still, " ++ ("p" ++ qualitySuffix)] ∧
    "Cinematic movie still, " ++ ("p" ++ qualitySuffix) ≠ "p" ++ qualitySuffix := by
  refine ⟨by decide, by decide⟩

/-- C3 amended: the video fan-out join is a partial-success join — when at
least one settled operation yields a usable URI the call succeeds with all
successful (key-suffixed) URIs, the first as primary, and
isFallbackImage = false, with no fallback call; when zero operations
succeed, exactly one still-image fallback call is made with the
suffix-augmented prompt prefixed by "Cinematic movie still, "; a
succeeding fallback yields its first image with isFallbackImage = true,
and a failing fallback fails the whole call with a descriptive error
aggregating the first rejected cause. -/
theorem generateVideo_join_amended (apiKey : Option String)
    (results : List (Except GError (Option String)))
    (fallback : String → Except GError (List String)) (prompt : String) :
    (collectValidUris results apiKey ≠ [] →
      generateVideoCore apiKey results fallback prompt =
        (Except.ok ⟨(collectValidUris results apiKey).headD "",
          some (collectValidUris results apiKey), false⟩, [])) ∧
    (collectValidUris results apiKey = [] →
      (generateVideoCore apiKey results fallback prompt).2 = [fallbackPrompt prompt] ∧
      (∀ imgs, fallback (fallbackPrompt prompt) = Except.ok imgs →
        (generateVideoCore apiKey results fallback prompt).1 =
          Except.ok ⟨imgs.headD "", none, true⟩) ∧
      (∀ e, fallback (fallbackPrompt prompt) = Except.error e →
        (generateVideoCore apiKey results fallback prompt).1 =
          Except.error (mkErr ("Video generation failed: " ++
            getErrorMessage (firstRejected results))))) := by
  constructor
  · intro h
    have hl : ¬ (collectValidUris results apiKey).length = 0 := by
      simp only [List.length_eq_zero]
      exact h
    simp [generateVideoCore, hl]
  · intro h
    have hl : (collectValidUris results apiKey).length = 0 := by simp [h]
    refine ⟨?_, ?_, ?_⟩
    · cases hf : fallback (fallbackPrompt prompt) <;> simp [generateVideoCore, hl, hf]
    · intro imgs hf
      simp [generateVideoCore, hl, hf]
    · intro e hf
      simp [generateVideoCore, hl, hf]

/-- C3 amended witness: a fan-out of two settled operations with one
success and one rejection succeeds with the single key-suffixed URI, no
fallback call made. -/
theorem generateVideo_join_amended_witness :
    generateVideoCore (some "K") [Except.ok (some "u1"), Except.error errPermW]
        (fun _ => Except.error errPermW) "p" =
      (Except.ok ⟨"u1&key=K", some ["u1&key=K"], false⟩, []) :=
  (generateVideo_join_amended (some "K") [Except.ok (some "u1"), Except.error errPermW]
      (fun _ => Except.error errPermW) "p").1 (by decide)

/-- C9 counterexample: the video generation entry point performs no eager
missing-credential check — with no API key configured it still proceeds to
the fan-out and succeeds (interpolating the absent key as "undefined"),
instead of raising the missing-credential error. -/
theorem video_no_eager_key_check_cex :
    (generateVideoCore none [Except.ok (some "u")]
        (fun _ => Except.error errPermW) "p").1 =
      Except.ok ⟨"u&key=undefined", some ["u&key=undefined"], false⟩ ∧
    (generateVideoCore none [Except.ok (some "u")]
        (fun _ => Except.error errPermW) "p").1 ≠
      Except.error (mkErr missingKeyMsg) :=
  ⟨rfl, fun h => Except.noConfusion h⟩

/-- C9 amended: the chat, image and audio entry points raise the
missing-credential error eagerly (via getClient) before any remote call
whenever no key is configured; the video entry point performs no such
check and proceeds with generation, its result determined by the remote
operations alone. -/
theorem missing_credential_amended (apiKey : Option String)
    (chatRemote : String → String → String → Except GError String)
    (imgRemote : String → String → List String → String → String → Except GError (List String))
    (audRemote : String → String → Except GError (Option String))
    (fallback : String → Except GError (List String))
    (msg p1 p2 p3 : String) (imgs : List String) (ar res persona : Option String)
    (t s hw : Bool) :
    (tstr apiKey = false →
      sendChatMessage apiKey chatRemote msg t s hw = Except.error (mkErr missingKeyMsg) ∧
      generateImageFromText apiKey imgRemote p1 p2 imgs ar res = Except.error (mkErr missingKeyMsg) ∧
      generateAudio apiKey audRemote p3 persona = Except.error (mkErr missingKeyMsg)) ∧
    (∀ u : String, u ≠ "" →
      (generateVideoCore apiKey [Except.ok (some u)] fallback p1).1 =
        Except.ok ⟨u ++ "&key=" ++ envKeyStr apiKey,
          some [u ++ "&key=" ++ envKeyStr apiKey], false⟩) := by
  constructor
  · intro h
    have hc : getClient apiKey = Except.error (mkErr missingKeyMsg) := by
      simp [getClient, h]
    exact ⟨by simp [sendChatMessage, hc], by simp [generateImageFromText, hc],
      by simp [generateAudio, hc]⟩
  · intro u hu
    have hcol : collectValidUris [Except.ok (some u)] apiKey =
        [u ++ "&key=" ++ envKeyStr apiKey] := by
      simp [collectValidUris, hu]
    simp [generateVideoCore, hcol]

/-- C9 amended witness: with no key, the chat entry point fails eagerly
with the missing-credential error even though its remote oracle would
succeed. -/
theorem missing_credential_amended_witness :
    sendChatMessage none (fun _ _ _ => Except.ok "hi") "m" false false false =
      Except.error (mkErr missingKeyMsg) :=
  ((missing_credential_amended none (fun _ _ _ => Except.ok "hi")
      (fun _ _ _ _ _ => Except.ok ["i"]) (fun _ _ => Except.ok (some "a"))
      (fun _ => Except.ok ["f"]) "m" "p" "p" "p" [] none none none
      false false false).1 (by decide)).1
